import Mathlib

/-!
gbm_gralloc: the gralloc module of `gralloc.cpp`

A shallow embedding of the functions of `src/gralloc.cpp` that the
specification talks about:

* `gralloc_gbm_get_bpp` (bytes per pixel of a HAL pixel format),
* `gbm_init`, `gbm_mod_close_gpu0` (the device context),
* `gbm_mod_alloc_gpu0`, `gbm_mod_register_buffer`, `gbm_mod_lock`
  (the allocation endpoint and the buffer operations),
* `_send_fd`, `gbm_deliver_frame_to_x11`, `gbm_fb_post` (the frame handoff).

Conventions of the embedding.

* C `int` values are `Int`; a pointer is `Option` of what it points to
  (`none` is `NULL`).
* A function that calls code outside the file (the GBM allocator, the
  socket layer) receives the return value of that call as an argument and
  records the call in a trace of `Event`s, in program order.
* An output parameter (`*handle`, `*stride`, `*ptr`, `*result`) is passed
  in with its previous contents and returned with its new contents.
* An evaluation the C standard leaves undefined is an explicit
  `Outcome.undefined`.
* Logging calls (`ALOGW`, `ALOGE`, `ALOGV`) have no effect on the results
  and are left out.
-/

namespace Gralloc

/-! ## Machine integers -/

/-- Smallest value of a 32-bit C `int`. -/
def INT_MIN : Int := -2147483648

/-- Ways in which a C evaluation leaves defined behaviour. -/
inductive Undefined where
  | division_by_zero
  | signed_overflow
  deriving DecidableEq, Repr

/-- Result of running a C function: it returns a value, or it reaches an
evaluation whose behaviour is undefined. -/
inductive Outcome (α : Type) where
  | returned (a : α)
  | undefined (u : Undefined)
  deriving DecidableEq, Repr

/-- C division `a / b` on `int`: undefined for a zero divisor and for
`INT_MIN / -1`, otherwise the quotient truncated towards zero. -/
def c_div (a b : Int) : Outcome Int :=
  if b = 0 then .undefined .division_by_zero
  else if a = INT_MIN ∧ b = -1 then .undefined .signed_overflow
  else .returned (Int.tdiv a b)

/-- C unary minus `-a` on `int`: undefined for `INT_MIN`. -/
def c_neg (a : Int) : Outcome Int :=
  if a = INT_MIN then .undefined .signed_overflow
  else .returned (-a)

/-! ## Constants of the included headers -/

/-- Constants that `gralloc.cpp` takes from headers which are not part of
the sources (`<errno.h>`, `<system/graphics.h>`): their values are
parameters of the embedding. -/
structure Headers where
  EINVAL : Int
  HAL_PIXEL_FORMAT_RGBA_8888 : Int
  HAL_PIXEL_FORMAT_RGBX_8888 : Int
  HAL_PIXEL_FORMAT_BGRA_8888 : Int
  HAL_PIXEL_FORMAT_RGB_888 : Int
  HAL_PIXEL_FORMAT_RGB_565 : Int
  HAL_PIXEL_FORMAT_YCbCr_422_I : Int
  HAL_PIXEL_FORMAT_YV12 : Int
  HAL_PIXEL_FORMAT_YCbCr_422_SP : Int
  HAL_PIXEL_FORMAT_YCrCb_420_SP : Int
  deriving DecidableEq, Repr

/-- The case labels of the `switch` in `gralloc_gbm_get_bpp`, in source
order. -/
def Headers.case_labels (H : Headers) : List Int :=
  [H.HAL_PIXEL_FORMAT_RGBA_8888, H.HAL_PIXEL_FORMAT_RGBX_8888,
   H.HAL_PIXEL_FORMAT_BGRA_8888, H.HAL_PIXEL_FORMAT_RGB_888,
   H.HAL_PIXEL_FORMAT_RGB_565, H.HAL_PIXEL_FORMAT_YCbCr_422_I,
   H.HAL_PIXEL_FORMAT_YV12, H.HAL_PIXEL_FORMAT_YCbCr_422_SP,
   H.HAL_PIXEL_FORMAT_YCrCb_420_SP]

/-- C accepts a `switch` only when no two case labels have the same
value. -/
def Headers.labels_distinct (H : Headers) : Prop :=
  H.case_labels.Nodup

instance (H : Headers) : Decidable H.labels_distinct :=
  inferInstanceAs (Decidable H.case_labels.Nodup)

/-- The values these constants have on Android/Linux, used to evaluate the
embedding on concrete inputs. -/
def android_headers : Headers where
  EINVAL := 22
  HAL_PIXEL_FORMAT_RGBA_8888 := 1
  HAL_PIXEL_FORMAT_RGBX_8888 := 2
  HAL_PIXEL_FORMAT_BGRA_8888 := 5
  HAL_PIXEL_FORMAT_RGB_888 := 3
  HAL_PIXEL_FORMAT_RGB_565 := 4
  HAL_PIXEL_FORMAT_YCbCr_422_I := 20
  HAL_PIXEL_FORMAT_YV12 := 842094169
  HAL_PIXEL_FORMAT_YCbCr_422_SP := 16
  HAL_PIXEL_FORMAT_YCrCb_420_SP := 17

/-! ## `gralloc_gbm_get_bpp` -/

/-- Bytes per pixel of `format` (`gralloc.cpp` lines 52-81); `0` is the
`default` branch of the `switch`. -/
def gralloc_gbm_get_bpp (H : Headers) (format : Int) : Int :=
  if format = H.HAL_PIXEL_FORMAT_RGBA_8888
      ∨ format = H.HAL_PIXEL_FORMAT_RGBX_8888
      ∨ format = H.HAL_PIXEL_FORMAT_BGRA_8888 then 4
  else if format = H.HAL_PIXEL_FORMAT_RGB_888 then 3
  else if format = H.HAL_PIXEL_FORMAT_RGB_565
      ∨ format = H.HAL_PIXEL_FORMAT_YCbCr_422_I then 2
  else if format = H.HAL_PIXEL_FORMAT_YV12
      ∨ format = H.HAL_PIXEL_FORMAT_YCbCr_422_SP
      ∨ format = H.HAL_PIXEL_FORMAT_YCrCb_420_SP then 1
  else 0

/-! ## Data model -/

/-- The module object `struct gbm_module_t` (lines 45-50): `gbm` is the
allocator connection `struct gbm_device *`, named by its address, `none`
for `NULL`.  The mutex appears as lock/unlock events of the trace. -/
structure gbm_module_t where
  gbm : Option Nat
  deriving DecidableEq, Repr

/-- Modelled from the spec: `struct gralloc_gbm_handle_t` is declared in
`gralloc_drm_handle.h`, which is not among the sources; the fields are the
attributes the spec lists for a Buffer Handle.  `base` is the address of
the embedded native handle, `stride` is in bytes. -/
structure gralloc_gbm_handle_t where
  base : Nat
  width : Int
  height : Int
  format : Int
  usage : Int
  stride : Int
  prime_fd : Int
  deriving DecidableEq, Repr

/-- A `buffer_handle_t` is a pointer to the native handle at the start of
a `gralloc_gbm_handle_t`. -/
abbrev buffer_handle_t := Option gralloc_gbm_handle_t

/-- Calls that leave `gralloc.cpp`, with their arguments and, where the
caller uses it, the value they returned. -/
inductive Event where
  | pthread_mutex_lock
  | pthread_mutex_unlock
  | gbm_dev_create (ret : Option Nat)
  | gbm_dev_destroy (gbm : Option Nat)
  | free_device
  | gralloc_gbm_bo_create (gbm : Option Nat) (w h format usage : Int)
  | gralloc_gbm_handle_register (handle : buffer_handle_t) (gbm : Option Nat)
  | gralloc_gbm_bo_lock (handle : buffer_handle_t) (usage x y w h : Int)
  | gralloc_drm_get_prime_fd (buffer : buffer_handle_t)
  | socket_local_client (ret : Int)
  | setsockopt_rcvtimeo (s tv_sec tv_usec : Int)
  | sendmsg (s fd ret : Int)
  | recv (s ret : Int)
  | close (fd : Int)
  deriving DecidableEq, Repr

/-! ## Device context -/

/-- What `gbm_init` leaves behind: its return value, the module object and
the calls it made. -/
structure InitResult where
  err : Int
  dmod : gbm_module_t
  trace : List Event
  deriving DecidableEq, Repr

/-- The function `gbm_init` (lines 86-100).  `create_ret` is what
`gbm_dev_create()` returns if it is called. -/
def gbm_init (H : Headers) (create_ret : Option Nat) (dmod : gbm_module_t) :
    InitResult :=
  match dmod.gbm with
  | some _ =>
    { err := 0, dmod := dmod,
      trace := [.pthread_mutex_lock, .pthread_mutex_unlock] }
  | none =>
    let dmod1 : gbm_module_t := { dmod with gbm := create_ret }
    match dmod1.gbm with
    | none =>
      { err := -H.EINVAL, dmod := dmod1,
        trace := [.pthread_mutex_lock, .gbm_dev_create create_ret,
                  .pthread_mutex_unlock] }
    | some _ =>
      { err := 0, dmod := dmod1,
        trace := [.pthread_mutex_lock, .gbm_dev_create create_ret,
                  .pthread_mutex_unlock] }

/-- A sequence of `gbm_init` calls on the same module object; the list
gives, call by call, what `gbm_dev_create()` would return. -/
def gbm_init_seq (H : Headers) : List (Option Nat) → gbm_module_t → List InitResult
  | [], _ => []
  | o :: os, dmod =>
    let r := gbm_init H o dmod
    r :: gbm_init_seq H os r.dmod

/-- The event is a call of `gbm_dev_create` that returned a connection. -/
def Event.is_successful_open : Event → Bool
  | .gbm_dev_create (some _) => true
  | _ => false

/-- The event is a call of `gbm_dev_create`, whatever it returned. -/
def Event.is_open_call : Event → Bool
  | .gbm_dev_create _ => true
  | _ => false

/-- Number of successful allocator opens in a run of `gbm_init` calls. -/
def successful_opens (rs : List InitResult) : Nat :=
  (rs.map (fun r => r.trace.countP Event.is_successful_open)).sum

/-- What `gbm_mod_close_gpu0` leaves behind. -/
structure CloseResult where
  ret : Int
  dmod : gbm_module_t
  trace : List Event
  deriving DecidableEq, Repr

/-- The function `gbm_mod_close_gpu0` (lines 199-209): destroys the
connection `dmod->gbm`, frees the device object, stores nothing. -/
def gbm_mod_close_gpu0 (dmod : gbm_module_t) : CloseResult :=
  { ret := 0, dmod := dmod,
    trace := [.gbm_dev_destroy dmod.gbm, .free_device] }

/-! ## Allocation endpoint and buffer operations -/

/-- What `gbm_mod_alloc_gpu0` leaves behind: return value, contents of
`*handle` and `*stride`, and the calls it made. -/
structure AllocResult where
  err : Int
  handle : buffer_handle_t
  stride : Int
  trace : List Event
  deriving DecidableEq, Repr

/-- The function `gbm_mod_alloc_gpu0` (lines 227-252).  `bo_create_ret` is
what `gralloc_gbm_bo_create` returns (`none` for `NULL`), `errno` the
error number it left behind; `handle` and `stride` are the previous
contents of the two output parameters. -/
def gbm_mod_alloc_gpu0 (H : Headers) (dmod : gbm_module_t)
    (w h format usage : Int)
    (bo_create_ret : Option gralloc_gbm_handle_t) (errno : Int)
    (handle : buffer_handle_t) (stride : Int) : Outcome AllocResult :=
  let t : List Event :=
    [.pthread_mutex_lock, .gralloc_gbm_bo_create dmod.gbm w h format usage]
  match bo_create_ret with
  | none =>
    match c_neg errno with
    | .undefined u => .undefined u
    | .returned err =>
      .returned { err := err, handle := handle, stride := stride,
                  trace := t ++ [.pthread_mutex_unlock] }
  | some gbm_handle =>
    match c_div gbm_handle.stride (gralloc_gbm_get_bpp H format) with
    | .undefined u => .undefined u
    | .returned px =>
      .returned { err := 0, handle := some gbm_handle, stride := px,
                  trace := t ++ [.pthread_mutex_unlock] }

/-- What `gbm_mod_register_buffer` leaves behind. -/
structure RegisterResult where
  err : Int
  dmod : gbm_module_t
  trace : List Event
  deriving DecidableEq, Repr

/-- The function `gbm_mod_register_buffer` (lines 138-154).
`register_ret` is what `gralloc_gbm_handle_register` returns. -/
def gbm_mod_register_buffer (H : Headers) (create_ret : Option Nat)
    (register_ret : Int) (dmod : gbm_module_t) (handle : buffer_handle_t) :
    RegisterResult :=
  let i := gbm_init H create_ret dmod
  if i.err ≠ 0 then { err := i.err, dmod := i.dmod, trace := i.trace }
  else
    { err := register_ret, dmod := i.dmod,
      trace := i.trace ++
        [.pthread_mutex_lock,
         .gralloc_gbm_handle_register handle i.dmod.gbm,
         .pthread_mutex_unlock] }

/-- What `gbm_mod_lock` leaves behind: return value, contents of `*ptr`,
and the calls it made. -/
structure LockResult where
  err : Int
  ptr : Option Nat
  trace : List Event
  deriving DecidableEq, Repr

/-- The function `gbm_mod_lock` (lines 170-184).  `bo_lock` stands for
`gralloc_gbm_bo_lock`, which is not in this file: from the handle, the
usage, the region and the previous contents of `*ptr` it gives its return
value and the new contents of `*ptr`. -/
def gbm_mod_lock
    (bo_lock : buffer_handle_t → Int → Int → Int → Int → Int → Option Nat →
      Int × Option Nat)
    (handle : buffer_handle_t) (usage x y w h : Int) (ptr : Option Nat) :
    LockResult :=
  let r := bo_lock handle usage x y w h ptr
  { err := r.1, ptr := r.2,
    trace := [.pthread_mutex_lock,
              .gralloc_gbm_bo_lock handle usage x y w h,
              .pthread_mutex_unlock] }

/-- The region `(x, y, w, h)` leaves the rectangle `(0, 0, width, height)`
of the handle. -/
def region_out_of_range (hd : gralloc_gbm_handle_t) (x y w h : Int) : Prop :=
  x < 0 ∨ y < 0 ∨ x + w > hd.width ∨ y + h > hd.height

instance (hd : gralloc_gbm_handle_t) (x y w h : Int) :
    Decidable (region_out_of_range hd x y w h) :=
  inferInstanceAs (Decidable (x < 0 ∨ y < 0 ∨ x + w > hd.width ∨ y + h > hd.height))

/-! ## Frame handoff -/

/-- What the socket layer answers during one run of
`gbm_deliver_frame_to_x11`: the return values of `socket_local_client`,
`sendmsg` and `recv` (the last two of type `ssize_t`), and the byte that
`recv` stores when it delivers one. -/
structure SocketOutcomes where
  socket_local_client : Int
  sendmsg : Int
  recv : Int
  reply : Int
  deriving DecidableEq, Repr

/-- The function `_send_fd` (lines 299-327), given what `sendmsg`
returned.  The return value is stored in `unsigned int n`, that is reduced
modulo `2^32`, and compared with `iov.iov_len`, which is `1`. -/
def _send_fd (sendmsg_ret : Int) : Int :=
  let n : Int := sendmsg_ret % 2 ^ 32
  if n ≠ 1 then -1 else 0

/-- What `gbm_deliver_frame_to_x11` leaves behind: return value, contents
of `*result` (`none` when `result` is `NULL`), and the calls it made. -/
structure DeliverResult where
  ret : Int
  result : Option Int
  trace : List Event
  deriving DecidableEq, Repr

/-- The function `gbm_deliver_frame_to_x11` (lines 330-365).  The
comparison `recv(...) != sizeof(reply)` converts the `ssize_t` to the
`size_t` of the same width, which maps exactly the value `1` to `1`. -/
def gbm_deliver_frame_to_x11 (env : SocketOutcomes) (postfd : Int)
    (result : Option Int) : DeliverResult :=
  let unixfd := env.socket_local_client
  let t0 : List Event := [.socket_local_client unixfd]
  if unixfd ≤ 0 then { ret := -1, result := result, trace := t0 }
  else
    let t1 := t0 ++ [.setsockopt_rcvtimeo unixfd 5 0,
                     .sendmsg unixfd postfd env.sendmsg]
    if _send_fd env.sendmsg = -1 then
      { ret := -1, result := result, trace := t1 ++ [.close unixfd] }
    else
      let t2 := t1 ++ [.recv unixfd env.recv]
      if env.recv ≠ 1 then
        { ret := -1, result := result, trace := t2 ++ [.close unixfd] }
      else
        let reply := env.reply
        { ret := 0, result := result.map (fun _ => reply),
          trace := t2 ++ [.close unixfd] }

/-- The event is a call of `recv`. -/
def Event.is_recv : Event → Bool
  | .recv _ _ => true
  | _ => false

/-- What `gbm_fb_post` leaves behind. -/
structure PostResult where
  ret : Int
  trace : List Event
  deriving DecidableEq, Repr

/-- The function `gbm_fb_post` (lines 368-378).  `get_prime_fd` stands for
`gralloc_drm_get_prime_fd`, which is not in this file. -/
def gbm_fb_post (env : SocketOutcomes) (get_prime_fd : buffer_handle_t → Int)
    (buffer : buffer_handle_t) : PostResult :=
  let framefd := get_prime_fd buffer
  let d := gbm_deliver_frame_to_x11 env framefd none
  { ret := 0,
    trace := [.pthread_mutex_lock, .gralloc_drm_get_prime_fd buffer] ++
      d.trace ++ [.pthread_mutex_unlock] }

/-! ## Auxiliary facts -/

/-- Distinct case labels, read as inequalities in both directions. -/
theorem labels_distinct_pairwise (H : Headers) (hd : H.labels_distinct) :
    H.case_labels.Pairwise (fun a b => a ≠ b ∧ b ≠ a) :=
  List.Pairwise.imp (fun h => ⟨h, Ne.symm h⟩) hd

/-- Truncated division by a positive divisor keeps a lower bound:
from `w * b ≤ s` follows `w ≤ s / b`, also for negative `s` and `w`. -/
theorem le_tdiv_of_mul_le (w s b : Int) (hb : 0 < b) (h : w * b ≤ s) :
    w ≤ Int.tdiv s b := by
  rcases le_or_lt 0 s with hs | hs
  · rw [Int.tdiv_eq_ediv hs (le_of_lt hb)]
    exact Int.le_ediv_of_mul_le hb h
  · have h1 : Int.tdiv s b = -(Int.tdiv (-s) b) := by
      rw [Int.neg_tdiv, neg_neg]
    rw [h1, Int.tdiv_eq_ediv (by omega) (le_of_lt hb)]
    have h2 : (-s) / b < -w + 1 := by
      apply Int.ediv_lt_of_lt_mul hb
      nlinarith
    omega

/-- The result of `gralloc_gbm_get_bpp` is one of `0, 1, 2, 3, 4`. -/
theorem get_bpp_range (H : Headers) (format : Int) :
    0 ≤ gralloc_gbm_get_bpp H format ∧ gralloc_gbm_get_bpp H format ≤ 4 := by
  unfold gralloc_gbm_get_bpp
  split_ifs <;> omega

/-- With a positive divisor the division is defined and truncates. -/
theorem c_div_pos (a b : Int) (hb : 0 < b) :
    c_div a b = .returned (Int.tdiv a b) := by
  unfold c_div
  rw [if_neg (by omega), if_neg (by omega)]

/-- A zero divisor makes the division undefined. -/
theorem c_div_zero (a : Int) : c_div a 0 = .undefined .division_by_zero := by
  simp [c_div]

/-- On a zero bytes-per-pixel format a successful `gralloc_gbm_bo_create`
leads `gbm_mod_alloc_gpu0` into the division by zero, for every request. -/
theorem alloc_created_zero_bpp (H : Headers) (dmod : gbm_module_t)
    (w h format usage : Int) (hd : gralloc_gbm_handle_t) (errno : Int)
    (handle : buffer_handle_t) (stride : Int)
    (h0 : gralloc_gbm_get_bpp H format = 0) :
    gbm_mod_alloc_gpu0 H dmod w h format usage (some hd) errno handle stride
      = .undefined .division_by_zero := by
  simp [gbm_mod_alloc_gpu0, h0, c_div_zero]

/-- When `gralloc_gbm_bo_create` fails, `gbm_mod_alloc_gpu0` returns
`-errno` and leaves both output parameters as they were; no division is
evaluated on this path. -/
theorem alloc_failed_returns_neg_errno (H : Headers) (dmod : gbm_module_t)
    (w h format usage : Int) (errno : Int)
    (handle : buffer_handle_t) (stride : Int) (hmin : errno ≠ INT_MIN) :
    gbm_mod_alloc_gpu0 H dmod w h format usage none errno handle stride
      = .returned { err := -errno, handle := handle, stride := stride,
                    trace := [.pthread_mutex_lock,
                              .gralloc_gbm_bo_create dmod.gbm w h format usage,
                              .pthread_mutex_unlock] } := by
  simp [gbm_mod_alloc_gpu0, c_neg, hmin]

/-- Once a connection is stored, no later `gbm_init` opens the
allocator. -/
theorem successful_opens_ready (H : Headers) (os : List (Option Nat)) (c : Nat) :
    successful_opens (gbm_init_seq H os ⟨some c⟩) = 0 := by
  induction os with
  | nil => rfl
  | cons o os ih =>
    simp only [gbm_init_seq, gbm_init, successful_opens, List.map_cons, List.sum_cons]
    simp only [successful_opens] at ih
    rw [ih]
    rfl

/-- From the uninitialized state at most one `gbm_init` opens the
allocator successfully. -/
theorem successful_opens_uninitialized (H : Headers) (os : List (Option Nat)) :
    successful_opens (gbm_init_seq H os ⟨none⟩) ≤ 1 := by
  induction os with
  | nil => simp [gbm_init_seq, successful_opens]
  | cons o os ih =>
    cases o with
    | none =>
      simp only [gbm_init_seq, gbm_init, successful_opens, List.map_cons, List.sum_cons]
      simp only [successful_opens] at ih
      have h0 : List.countP Event.is_successful_open
          [Event.pthread_mutex_lock, Event.gbm_dev_create none,
           Event.pthread_mutex_unlock] = 0 := rfl
      rw [h0]
      omega
    | some c =>
      have h0 := successful_opens_ready H os c
      simp only [gbm_init_seq, gbm_init, successful_opens, List.map_cons, List.sum_cons]
      simp only [successful_opens] at h0
      rw [h0]
      have h1 : List.countP Event.is_successful_open
          [Event.pthread_mutex_lock, Event.gbm_dev_create (some c),
           Event.pthread_mutex_unlock] = 1 := rfl
      rw [h1]

/-- For a connect result above zero the descriptor is closed exactly once,
on the send-failure, receive-failure and success paths alike. -/
theorem deliver_closes_positive_descriptor (env : SocketOutcomes) (postfd : Int)
    (result : Option Int) (hfd : 0 < env.socket_local_client) :
    (gbm_deliver_frame_to_x11 env postfd result).trace.count
      (.close env.socket_local_client) = 1 := by
  unfold gbm_deliver_frame_to_x11
  rw [if_neg (by omega)]
  split_ifs <;> simp [List.count_cons]

/-- For a connect result of at most zero nothing is closed. -/
theorem deliver_closes_nothing (env : SocketOutcomes) (postfd : Int)
    (result : Option Int) (hfd : env.socket_local_client ≤ 0) (fd : Int) :
    (gbm_deliver_frame_to_x11 env postfd result).trace.count (.close fd) = 0 := by
  unfold gbm_deliver_frame_to_x11
  rw [if_pos hfd]
  simp [List.count_cons]

/-- Within the stated range the `unsigned int` copy of the `sendmsg`
result is `1` only for the result `1`. -/
theorem send_fd_ok_iff (s : Int) (hs : 1 - 2 ^ 32 < s ∧ s < 1 + 2 ^ 32) :
    _send_fd s = 0 ↔ s = 1 := by
  simp only [_send_fd]
  constructor
  · intro h
    by_contra hne
    have hn : s % 2 ^ 32 ≠ 1 := by omega
    rw [if_pos hn] at h
    omega
  · intro h
    subst h
    decide

/-- The function `_send_fd` returns `0` or `-1`. -/
theorem send_fd_values (s : Int) : _send_fd s = 0 ∨ _send_fd s = -1 := by
  simp only [_send_fd]
  split_ifs <;> simp

/-! ## Theorems -/

/-- C1, evaluated at a failing input: for the format value 34, which is
none of the nine case labels, `gralloc_gbm_get_bpp` gives 0; when
`gralloc_gbm_bo_create` returns a handle (stride 2880) for the request
`(720, 1280, 34, 0)`, `gbm_mod_alloc_gpu0` does not return a failure: it
evaluates `2880 / 0`, a division by zero. -/
theorem alloc_unsupported_format_divides_by_zero :
    gralloc_gbm_get_bpp android_headers 34 = 0
    ∧ gbm_mod_alloc_gpu0 android_headers ⟨some 1⟩ 720 1280 34 0
        (some ⟨4096, 720, 1280, 34, 0, 2880, 9⟩) 0 none 0
      = .undefined .division_by_zero := by
  decide

/-- C2, evaluated at a failing input: when `gralloc_gbm_bo_create` fails
and the error number it left behind is 0, `gbm_mod_alloc_gpu0` returns
`-0 = 0`, the success value, for every request; the output handle and the
output stride keep their previous contents. -/
theorem alloc_failure_with_errno_zero_returns_zero (H : Headers)
    (dmod : gbm_module_t) (w h format usage : Int)
    (handle : buffer_handle_t) (stride : Int) :
    gbm_mod_alloc_gpu0 H dmod w h format usage none 0 handle stride
      = .returned { err := 0, handle := handle, stride := stride,
                    trace := [.pthread_mutex_lock,
                              .gralloc_gbm_bo_create dmod.gbm w h format usage,
                              .pthread_mutex_unlock] } := by
  simp [gbm_mod_alloc_gpu0, c_neg, INT_MIN]

/-- C3: for a format with `gralloc_gbm_get_bpp > 0` and a successful
`gralloc_gbm_bo_create` whose handle has `stride >= w * bpp`,
`gbm_mod_alloc_gpu0` returns 0, stores the handle, and stores the stride
in pixels `stride / bpp` (C integer division, `Int.tdiv`), which is at
least `w`. -/
theorem alloc_stride_in_pixels (H : Headers) (dmod : gbm_module_t)
    (w h format usage : Int) (hd : gralloc_gbm_handle_t) (errno : Int)
    (handle : buffer_handle_t) (stride : Int)
    (hbpp : 0 < gralloc_gbm_get_bpp H format)
    (hs : w * gralloc_gbm_get_bpp H format ≤ hd.stride) :
    ∃ r : AllocResult,
      gbm_mod_alloc_gpu0 H dmod w h format usage (some hd) errno handle stride
        = .returned r
      ∧ r.err = 0
      ∧ r.handle = some hd
      ∧ r.stride = Int.tdiv hd.stride (gralloc_gbm_get_bpp H format)
      ∧ w ≤ r.stride := by
  refine ⟨{ err := 0, handle := some hd,
            stride := Int.tdiv hd.stride (gralloc_gbm_get_bpp H format),
            trace := [.pthread_mutex_lock,
                      .gralloc_gbm_bo_create dmod.gbm w h format usage,
                      .pthread_mutex_unlock] }, ?_, rfl, rfl, rfl, ?_⟩
  · simp [gbm_mod_alloc_gpu0, c_div_pos _ _ hbpp]
  · exact le_tdiv_of_mul_le w hd.stride _ hbpp hs

/-- C3 at the example of the spec: `alloc(720, 1280, RGBA_8888, 0)` with a
handle of 2882 bytes per row gives the stride `2882 / 4 = 720` pixels. -/
theorem alloc_stride_in_pixels_witness :
    0 < gralloc_gbm_get_bpp android_headers 1
    ∧ 720 * gralloc_gbm_get_bpp android_headers 1 ≤ 2882
    ∧ ∃ r : AllocResult,
      gbm_mod_alloc_gpu0 android_headers ⟨some 1⟩ 720 1280 1 0
          (some ⟨4096, 720, 1280, 1, 0, 2882, 9⟩) 0 none 0 = .returned r
      ∧ r.err = 0
      ∧ r.handle = some ⟨4096, 720, 1280, 1, 0, 2882, 9⟩
      ∧ r.stride = Int.tdiv 2882 (gralloc_gbm_get_bpp android_headers 1)
      ∧ 720 ≤ r.stride :=
  ⟨by decide, by decide,
   alloc_stride_in_pixels android_headers ⟨some 1⟩ 720 1280 1 0
     ⟨4096, 720, 1280, 1, 0, 2882, 9⟩ 0 none 0 (by decide) (by decide)⟩

/-- C4: `gralloc_gbm_get_bpp` gives 4 for RGBA_8888, RGBX_8888 and
BGRA_8888, 3 for RGB_888, 2 for RGB_565 and YCbCr_422_I, 1 for YV12,
YCbCr_422_SP and YCrCb_420_SP, and 0 for every other integer; so the
result is positive exactly for the nine case labels and is always one of
0, 1, 2, 3, 4.  The case labels are pairwise distinct, as C demands of a
`switch`. -/
theorem gralloc_gbm_get_bpp_table (H : Headers) (hd : H.labels_distinct) :
    gralloc_gbm_get_bpp H H.HAL_PIXEL_FORMAT_RGBA_8888 = 4
    ∧ gralloc_gbm_get_bpp H H.HAL_PIXEL_FORMAT_RGBX_8888 = 4
    ∧ gralloc_gbm_get_bpp H H.HAL_PIXEL_FORMAT_BGRA_8888 = 4
    ∧ gralloc_gbm_get_bpp H H.HAL_PIXEL_FORMAT_RGB_888 = 3
    ∧ gralloc_gbm_get_bpp H H.HAL_PIXEL_FORMAT_RGB_565 = 2
    ∧ gralloc_gbm_get_bpp H H.HAL_PIXEL_FORMAT_YCbCr_422_I = 2
    ∧ gralloc_gbm_get_bpp H H.HAL_PIXEL_FORMAT_YV12 = 1
    ∧ gralloc_gbm_get_bpp H H.HAL_PIXEL_FORMAT_YCbCr_422_SP = 1
    ∧ gralloc_gbm_get_bpp H H.HAL_PIXEL_FORMAT_YCrCb_420_SP = 1
    ∧ (∀ format : Int, format ∉ H.case_labels → gralloc_gbm_get_bpp H format = 0)
    ∧ (∀ format : Int, 0 < gralloc_gbm_get_bpp H format ↔ format ∈ H.case_labels)
    ∧ (∀ format : Int, gralloc_gbm_get_bpp H format ∈ [0, 1, 2, 3, 4]) := by
  have hp := labels_distinct_pairwise H hd
  simp only [Headers.case_labels, List.pairwise_cons, List.mem_cons, List.mem_singleton,
    List.not_mem_nil, ne_eq, forall_eq_or_imp, forall_eq, IsEmpty.forall_iff, implies_true,
    and_true, List.Pairwise.nil] at hp
  refine ⟨?_, ?_, ?_, ?_, ?_, ?_, ?_, ?_, ?_, ?_, ?_, ?_⟩
  · simp [gralloc_gbm_get_bpp]
  · simp [gralloc_gbm_get_bpp]
  · simp [gralloc_gbm_get_bpp]
  · simp [gralloc_gbm_get_bpp, hp]
  · simp [gralloc_gbm_get_bpp, hp]
  · simp [gralloc_gbm_get_bpp, hp]
  · simp [gralloc_gbm_get_bpp, hp]
  · simp [gralloc_gbm_get_bpp, hp]
  · simp [gralloc_gbm_get_bpp, hp]
  · intro format hf
    simp only [Headers.case_labels, List.mem_cons, List.mem_singleton, List.not_mem_nil,
      or_false, not_or] at hf
    simp [gralloc_gbm_get_bpp, hf]
  · intro format
    simp only [Headers.case_labels, List.mem_cons, List.mem_singleton, List.not_mem_nil,
      or_false]
    unfold gralloc_gbm_get_bpp
    split_ifs <;> simp_all <;> tauto
  · intro format
    unfold gralloc_gbm_get_bpp
    split_ifs <;> simp

/-- C4 on the Android values of the constants: the labels are distinct,
RGB_888 (3) has 3 bytes per pixel, YV12 has 1, and the integers 0 and 34,
which are no case label, have 0. -/
theorem gralloc_gbm_get_bpp_table_witness :
    android_headers.labels_distinct
    ∧ gralloc_gbm_get_bpp android_headers 3 = 3
    ∧ gralloc_gbm_get_bpp android_headers 842094169 = 1
    ∧ gralloc_gbm_get_bpp android_headers 0 = 0
    ∧ gralloc_gbm_get_bpp android_headers 34 = 0 :=
  ⟨by decide,
   (gralloc_gbm_get_bpp_table android_headers (by decide)).2.2.2.1,
   (gralloc_gbm_get_bpp_table android_headers (by decide)).2.2.2.2.2.2.1,
   (gralloc_gbm_get_bpp_table android_headers (by decide)).2.2.2.2.2.2.2.2.2.1 0
     (by decide),
   (gralloc_gbm_get_bpp_table android_headers (by decide)).2.2.2.2.2.2.2.2.2.1 34
     (by decide)⟩

/-- C5: for every buffer handle and every outcome of connect, send and
receive, `gbm_fb_post` returns 0; the handoff is run once, between the
lock and the unlock of the device mutex, and its return value is
dropped. -/
theorem gbm_fb_post_returns_success (env : SocketOutcomes)
    (get_prime_fd : buffer_handle_t → Int) (buffer : buffer_handle_t) :
    (gbm_fb_post env get_prime_fd buffer).ret = 0
    ∧ (gbm_fb_post env get_prime_fd buffer).trace
      = [Event.pthread_mutex_lock, Event.gralloc_drm_get_prime_fd buffer]
        ++ (gbm_deliver_frame_to_x11 env (get_prime_fd buffer) none).trace
        ++ [Event.pthread_mutex_unlock] :=
  ⟨rfl, rfl⟩

/-- C6, evaluated at a failing input: when `socket_local_client` returns
the open descriptor 0, `gbm_deliver_frame_to_x11` returns -1 right after
the connect; descriptor 0 is never closed. -/
theorem deliver_leaks_descriptor_zero :
    (gbm_deliver_frame_to_x11 ⟨0, 1, 1, 0⟩ 9 none).ret = -1
    ∧ (gbm_deliver_frame_to_x11 ⟨0, 1, 1, 0⟩ 9 none).trace
      = [Event.socket_local_client 0]
    ∧ (gbm_deliver_frame_to_x11 ⟨0, 1, 1, 0⟩ 9 none).trace.count (Event.close 0)
      = 0 := by
  decide

/-- C7: `gbm_init` is idempotent.  With a connection present it returns 0,
makes no call of `gbm_dev_create` and leaves the module object as it was;
with none present and a successful open it stores the new connection and
returns 0; with a failed open it returns `-EINVAL` and the module object
stays without a connection.  Over any sequence of calls, from any state,
at most one call opens the allocator successfully. -/
theorem gbm_init_idempotent (H : Headers) :
    (∀ (c : Nat) (o : Option Nat),
      (gbm_init H o ⟨some c⟩).err = 0
      ∧ (gbm_init H o ⟨some c⟩).dmod = ⟨some c⟩
      ∧ (gbm_init H o ⟨some c⟩).trace.countP Event.is_open_call = 0)
    ∧ (∀ c : Nat,
      (gbm_init H (some c) ⟨none⟩).err = 0
      ∧ (gbm_init H (some c) ⟨none⟩).dmod = ⟨some c⟩
      ∧ (gbm_init H (some c) ⟨none⟩).trace.countP Event.is_successful_open = 1)
    ∧ ((gbm_init H none ⟨none⟩).err = -H.EINVAL
      ∧ (gbm_init H none ⟨none⟩).dmod = ⟨none⟩)
    ∧ (∀ (os : List (Option Nat)) (dmod : gbm_module_t),
      successful_opens (gbm_init_seq H os dmod) ≤ 1) := by
  refine ⟨fun c o => ⟨rfl, rfl, rfl⟩, fun c => ⟨rfl, rfl, rfl⟩, ⟨rfl, rfl⟩, ?_⟩
  intro os dmod
  rcases dmod with ⟨_ | c⟩
  · exact successful_opens_uninitialized H os
  · rw [successful_opens_ready]
    exact Nat.zero_le 1

/-- C8, refuted at a concrete input: for a 720x1280 handle and the region
`(-1, 0, 10, 10)`, which has `x < 0`, with a `gralloc_gbm_bo_lock` that
accepts the region and returns 0, `gbm_mod_lock` returns 0. -/
theorem gbm_mod_lock_accepts_out_of_range_region :
    region_out_of_range ⟨4096, 720, 1280, 1, 0, 2880, 9⟩ (-1) 0 10 10
    ∧ (gbm_mod_lock (fun _ _ _ _ _ _ _ => (0, some 65536))
        (some ⟨4096, 720, 1280, 1, 0, 2880, 9⟩) 3 (-1) 0 10 10 none).err = 0 := by
  decide

/-- C8 as amended: `gbm_mod_lock` checks no region itself.  For every
handle, usage and region, inside or outside the buffer, it calls
`gralloc_gbm_bo_lock` once with the same arguments between the lock and
the unlock of the device mutex, returns what that call returned and leaves
`*ptr` as that call left it; so it fails exactly when
`gralloc_gbm_bo_lock` fails. -/
theorem gbm_mod_lock_forwards_bo_lock
    (bo_lock : buffer_handle_t → Int → Int → Int → Int → Int → Option Nat →
      Int × Option Nat)
    (handle : buffer_handle_t) (usage x y w h : Int) (ptr : Option Nat) :
    (gbm_mod_lock bo_lock handle usage x y w h ptr).err
      = (bo_lock handle usage x y w h ptr).1
    ∧ (gbm_mod_lock bo_lock handle usage x y w h ptr).ptr
      = (bo_lock handle usage x y w h ptr).2
    ∧ (gbm_mod_lock bo_lock handle usage x y w h ptr).trace
      = [Event.pthread_mutex_lock,
         Event.gralloc_gbm_bo_lock handle usage x y w h,
         Event.pthread_mutex_unlock]
    ∧ ((gbm_mod_lock bo_lock handle usage x y w h ptr).err ≠ 0
      ↔ (bo_lock handle usage x y w h ptr).1 ≠ 0) :=
  ⟨rfl, rfl, rfl, Iff.rfl⟩

/-- C9: `gbm_deliver_frame_to_x11` returns 0 exactly when the connect
returned a descriptor above 0, `sendmsg` accepted exactly 1 byte and
`recv` returned exactly 1; otherwise it returns -1; and after a send that
did not accept exactly 1 byte no `recv` is made.  The `sendmsg` result
lies strictly between `1 - 2^32` and `1 + 2^32`, which covers every
result POSIX allows for a one-byte message (-1, 0, 1) and every 32-bit
`ssize_t`. -/
theorem gbm_deliver_frame_to_x11_result (env : SocketOutcomes) (postfd : Int)
    (result : Option Int)
    (hs : 1 - 2 ^ 32 < env.sendmsg ∧ env.sendmsg < 1 + 2 ^ 32) :
    ((gbm_deliver_frame_to_x11 env postfd result).ret = 0
      ↔ 0 < env.socket_local_client ∧ env.sendmsg = 1 ∧ env.recv = 1)
    ∧ ((gbm_deliver_frame_to_x11 env postfd result).ret = 0
      ∨ (gbm_deliver_frame_to_x11 env postfd result).ret = -1)
    ∧ (env.sendmsg ≠ 1 →
      (gbm_deliver_frame_to_x11 env postfd result).trace.countP Event.is_recv = 0) := by
  have hiff := send_fd_ok_iff env.sendmsg hs
  have hval := send_fd_values env.sendmsg
  have hsend : _send_fd env.sendmsg = -1 ↔ env.sendmsg ≠ 1 := by
    constructor
    · intro h1 h2
      rw [hiff.mpr h2] at h1
      omega
    · intro h1
      rcases hval with h0 | h0
      · exact absurd (hiff.mp h0) h1
      · exact h0
  by_cases hfd : env.socket_local_client ≤ 0
  · have hret : (gbm_deliver_frame_to_x11 env postfd result).ret = -1 := by
      unfold gbm_deliver_frame_to_x11
      rw [if_pos hfd]
    have htr : (gbm_deliver_frame_to_x11 env postfd result).trace
        = [Event.socket_local_client env.socket_local_client] := by
      unfold gbm_deliver_frame_to_x11
      rw [if_pos hfd]
    rw [hret, htr]
    refine ⟨⟨fun h => by omega, fun h => by omega⟩, Or.inr rfl, fun _ => rfl⟩
  · by_cases h1 : env.sendmsg = 1
    · have hn : ¬ (_send_fd env.sendmsg = -1) := by
        rw [hsend]
        exact fun h => h h1
      by_cases h2 : env.recv = 1
      · have hret : (gbm_deliver_frame_to_x11 env postfd result).ret = 0 := by
          unfold gbm_deliver_frame_to_x11
          rw [if_neg hfd, if_neg hn, if_neg (fun h => h h2)]
        rw [hret]
        exact ⟨⟨fun _ => ⟨by omega, h1, h2⟩, fun _ => rfl⟩, Or.inl rfl,
          fun h => absurd h1 h⟩
      · have hret : (gbm_deliver_frame_to_x11 env postfd result).ret = -1 := by
          unfold gbm_deliver_frame_to_x11
          rw [if_neg hfd, if_neg hn, if_pos h2]
        rw [hret]
        exact ⟨⟨fun h => by omega, fun h => absurd h.2.2 h2⟩, Or.inr rfl,
          fun h => absurd h1 h⟩
    · have hn : _send_fd env.sendmsg = -1 := hsend.mpr h1
      have hret : (gbm_deliver_frame_to_x11 env postfd result).ret = -1 := by
        unfold gbm_deliver_frame_to_x11
        rw [if_neg hfd, if_pos hn]
      have htr : (gbm_deliver_frame_to_x11 env postfd result).trace
          = [Event.socket_local_client env.socket_local_client,
             Event.setsockopt_rcvtimeo env.socket_local_client 5 0,
             Event.sendmsg env.socket_local_client postfd env.sendmsg,
             Event.close env.socket_local_client] := by
        unfold gbm_deliver_frame_to_x11
        rw [if_neg hfd, if_pos hn]
        rfl
      rw [hret, htr]
      exact ⟨⟨fun h => by omega, fun h => absurd h.2.1 h1⟩, Or.inr rfl, fun _ => rfl⟩

/-- C9 on a run where the endpoint acknowledges: connect gives descriptor
3, `sendmsg` and `recv` both give 1, and the function returns 0. -/
theorem gbm_deliver_frame_to_x11_result_witness :
    (1 - 2 ^ 32 < (1 : Int) ∧ (1 : Int) < 1 + 2 ^ 32)
    ∧ (gbm_deliver_frame_to_x11 ⟨3, 1, 1, 7⟩ 9 none).ret = 0 :=
  ⟨by decide,
   (gbm_deliver_frame_to_x11_result ⟨3, 1, 1, 7⟩ 9 none (by decide)).1.mpr
     (by decide)⟩

/-- C10: `gbm_mod_close_gpu0` destroys the connection and leaves the
module's reference to it in place.  For every module object holding a
connection `c`: the close calls `gbm_dev_destroy` on `c`, returns 0 and
the module object still holds `c`; a following `gbm_init` returns 0
without a call of `gbm_dev_create` and keeps `c`; and the following
operations pass the destroyed `c` on: `gbm_mod_register_buffer` to
`gralloc_gbm_handle_register`, and `gbm_mod_alloc_gpu0`, whenever it
returns, to `gralloc_gbm_bo_create`. -/
theorem gbm_mod_close_gpu0_keeps_reference (H : Headers) (c : Nat) :
    (gbm_mod_close_gpu0 ⟨some c⟩).ret = 0
    ∧ (gbm_mod_close_gpu0 ⟨some c⟩).dmod = ⟨some c⟩
    ∧ Event.gbm_dev_destroy (some c) ∈ (gbm_mod_close_gpu0 ⟨some c⟩).trace
    ∧ (∀ o : Option Nat,
      (gbm_init H o (gbm_mod_close_gpu0 ⟨some c⟩).dmod).err = 0
      ∧ (gbm_init H o (gbm_mod_close_gpu0 ⟨some c⟩).dmod).dmod = ⟨some c⟩
      ∧ (gbm_init H o (gbm_mod_close_gpu0 ⟨some c⟩).dmod).trace.countP
          Event.is_open_call = 0)
    ∧ (∀ (o : Option Nat) (register_ret : Int) (handle : buffer_handle_t),
      (gbm_mod_register_buffer H o register_ret
          (gbm_mod_close_gpu0 ⟨some c⟩).dmod handle).err = register_ret
      ∧ Event.gralloc_gbm_handle_register handle (some c)
          ∈ (gbm_mod_register_buffer H o register_ret
              (gbm_mod_close_gpu0 ⟨some c⟩).dmod handle).trace)
    ∧ (∀ (w h format usage : Int) (bo_create_ret : Option gralloc_gbm_handle_t)
        (errno : Int) (handle : buffer_handle_t) (stride : Int) (r : AllocResult),
      gbm_mod_alloc_gpu0 H (gbm_mod_close_gpu0 ⟨some c⟩).dmod w h format usage
          bo_create_ret errno handle stride = .returned r →
        Event.gralloc_gbm_bo_create (some c) w h format usage ∈ r.trace) := by
  refine ⟨rfl, rfl, ?_, fun o => ⟨rfl, rfl, rfl⟩, ?_, ?_⟩
  · simp [gbm_mod_close_gpu0]
  · intro o register_ret handle
    simp [gbm_mod_register_buffer, gbm_mod_close_gpu0, gbm_init]
  · intro w h format usage bo_create_ret errno handle stride r hr
    unfold gbm_mod_alloc_gpu0 at hr
    cases bo_create_ret with
    | none =>
      dsimp only at hr
      cases hneg : c_neg errno with
      | undefined u => rw [hneg] at hr; cases hr
      | returned e =>
        rw [hneg] at hr
        cases hr
        simp [gbm_mod_close_gpu0]
    | some hd =>
      dsimp only at hr
      cases hdiv : c_div hd.stride (gralloc_gbm_get_bpp H format) with
      | undefined u => rw [hdiv] at hr; cases hr
      | returned px =>
        rw [hdiv] at hr
        cases hr
        simp [gbm_mod_close_gpu0]

/-- C10 on a concrete run: connection 7 is destroyed by the close, and
the allocation `(720, 1280, RGBA_8888, 0)` that follows hands connection 7
to `gralloc_gbm_bo_create`. -/
theorem gbm_mod_close_gpu0_keeps_reference_witness :
    Event.gbm_dev_destroy (some 7) ∈ (gbm_mod_close_gpu0 ⟨some 7⟩).trace
    ∧ Event.gralloc_gbm_bo_create (some 7) 720 1280 1 0
      ∈ [Event.pthread_mutex_lock,
         Event.gralloc_gbm_bo_create (some 7) 720 1280 1 0,
         Event.pthread_mutex_unlock] :=
  ⟨(gbm_mod_close_gpu0_keeps_reference android_headers 7).2.2.1,
   (gbm_mod_close_gpu0_keeps_reference android_headers 7).2.2.2.2.2
     720 1280 1 0 (some ⟨4096, 720, 1280, 1, 0, 2880, 9⟩) 0 none 0
     { err := 0, handle := some ⟨4096, 720, 1280, 1, 0, 2880, 9⟩, stride := 720,
       trace := [Event.pthread_mutex_lock,
                 Event.gralloc_gbm_bo_create (some 7) 720 1280 1 0,
                 Event.pthread_mutex_unlock] }
     (by decide)⟩

end Gralloc
